import Mathlib

set_option linter.unusedVariables false

/-!
Verification of the pySLiRP protocol stack (src/pySLiRP.py) against its
natural-language specification.  The definitions below are shallow
embeddings of the Python source: bytes are modelled as Nat, byte strings
as List Nat, fallible parsing as Option, and the mutable connection
state as explicit record updates.  Fields of the Python dataclasses that
no claim mentions (timers, timestamps, congestion-control wiring inside
the connection record, logging) are omitted from the records; every
field and every branch that a claim touches is translated faithfully.
-/

namespace PySlirp

/-! ### PPP framing (AsyncPPPHandler, src/pySLiRP.py lines 1119-1165) -/

/-- Decoder state of AsyncPPPHandler: the partial-frame buffer, whether we
are inside a frame, and whether the previous byte was the escape octet. -/
structure PPPDecoder where
  buffer : List Nat
  in_frame : Bool
  escaped : Bool
deriving DecidableEq, Repr

/-- Escape transformation applied by AsyncPPPHandler.frame_data to the
payload bytes: 0x7E and 0x7D are emitted as 0x7D followed by the byte
XOR 0x20; every other byte is emitted verbatim. -/
def escapeBytes : List Nat → List Nat
  | [] => []
  | b :: rest =>
    if b = 0x7E ∨ b = 0x7D then 0x7D :: (b ^^^ 0x20) :: escapeBytes rest
    else b :: escapeBytes rest

/-- AsyncPPPHandler.frame_data: a leading 0x7E flag, the escaped payload,
and a trailing 0x7E flag. -/
def frame_data (data : List Nat) : List Nat :=
  0x7E :: (escapeBytes data ++ [0x7E])

/-- One step of the AsyncPPPHandler.process_data byte loop.  On 0x7E:
if inside a frame with a non-empty buffer, emit the buffer as a frame and
leave frame state (the escaped flag is untouched by this branch of the
source); otherwise enter frame state with a cleared buffer and cleared
escape flag.  Inside a frame: 0x7D arms the escape flag; an escaped byte
is appended XOR 0x20; any other byte is appended verbatim.  Outside a
frame, non-flag bytes are discarded. -/
def processByte (st : PPPDecoder) (frames : List (List Nat)) (byte : Nat) :
    PPPDecoder × List (List Nat) :=
  if byte = 0x7E then
    if st.in_frame = true ∧ st.buffer ≠ [] then
      (⟨[], false, st.escaped⟩, frames ++ [st.buffer])
    else
      (⟨[], true, false⟩, frames)
  else if st.in_frame then
    if byte = 0x7D then
      ({ st with escaped := true }, frames)
    else if st.escaped then
      ({ st with buffer := st.buffer ++ [byte ^^^ 0x20], escaped := false }, frames)
    else
      ({ st with buffer := st.buffer ++ [byte] }, frames)
  else
    (st, frames)

/-- The byte loop of AsyncPPPHandler.process_data, threading the decoder
state and the accumulated frame list through the input bytes. -/
def processBytes (st : PPPDecoder) (frames : List (List Nat)) :
    List Nat → PPPDecoder × List (List Nat)
  | [] => (st, frames)
  | b :: rest =>
    let next := processByte st frames b
    processBytes next.1 next.2 rest

/-- AsyncPPPHandler.process_data: run the byte loop with a fresh (empty)
frame accumulator, returning the final decoder state and the complete
frames recognised in this call. -/
def process_data (st : PPPDecoder) (data : List Nat) : PPPDecoder × List (List Nat) :=
  processBytes st [] data

/-- Claim-side reading of the C9 separator property: the wire bytes of two
consecutively emitted frames consist of a leading flag, the first escaped
body, exactly ONE separating flag, the second escaped body, and a trailing
flag. -/
def separatedByOneFlag (f1 f2 : List Nat) : Prop :=
  frame_data f1 ++ frame_data f2 =
    0x7E :: (escapeBytes f1 ++ (0x7E :: (escapeBytes f2 ++ [0x7E])))

/-- Checks that a frame body as emitted on the wire contains no unescaped
0x7E or 0x7D: every byte is either distinct from both, or is a 0x7D that
begins a two-byte escape pair whose second byte is 0x5E or 0x5D. -/
def no_unescaped_from (afterEscape : Bool) : List Nat → Bool
  | [] => !afterEscape
  | b :: rest =>
    if afterEscape then (decide (b = 0x5E ∨ b = 0x5D)) && no_unescaped_from false rest
    else if b = 0x7D then no_unescaped_from true rest
    else (decide (b ≠ 0x7E)) && no_unescaped_from false rest

/-- Entry point of the unescaped-specials check: scan from outside an
escape pair. -/
def no_unescaped_specials (l : List Nat) : Bool := no_unescaped_from false l

/-! ### TCP flags and states (src/pySLiRP.py, TCPFlags / TCPState) -/

def TCPFlags_FIN : Nat := 0x01
def TCPFlags_SYN : Nat := 0x02
def TCPFlags_RST : Nat := 0x04
def TCPFlags_PSH : Nat := 0x08
def TCPFlags_ACK : Nat := 0x10

/-- The RFC 793 connection states used by the state machine. -/
inductive TCPState where
  | CLOSED | LISTEN | SYN_SENT | SYN_RCVD | ESTABLISHED
  | FIN_WAIT_1 | FIN_WAIT_2 | CLOSE_WAIT | CLOSING | LAST_ACK | TIME_WAIT
deriving DecidableEq, Repr

/-- A queued TCP segment (class TCPSegment): the fields the claims are
about.  In the source seq_end is seq_start plus the data length for plain
data segments (flags, timestamp and retransmit_count are carried too but
no claim depends on them). -/
structure TCPSegment where
  seq_start : Nat
  seq_end : Nat
  data : List Nat
deriving DecidableEq, Repr

/-- Congestion-control state (class CongestionControl).  Python floats are
modelled as rationals. -/
structure CongestionControlState where
  mss : ℚ := 1460
  cwnd : ℚ := 1460
  ssthresh : ℚ := 65535
  duplicate_acks : Nat := 0
  fast_recovery : Bool := false
deriving DecidableEq, Repr

/-- CongestionControl.on_timeout: ssthresh becomes max(cwnd // 2, 2*mss)
(Python float floor division), cwnd collapses to one MSS, duplicate-ACK
count clears and fast recovery is left. -/
def cc_on_timeout (c : CongestionControlState) : CongestionControlState :=
  { c with ssthresh := max ((⌊c.cwnd / 2⌋ : ℤ) : ℚ) (2 * c.mss),
           cwnd := c.mss,
           duplicate_acks := 0,
           fast_recovery := false }

/-- The per-connection state (dataclass TCPConnection): the fields the
claims are about, with the dataclass defaults.  bytes_in_flight is an
integer exactly as in Python (it is decremented without truncation). -/
structure TCPConnection where
  state : TCPState := TCPState.CLOSED
  seq_num : Nat := 0
  initial_seq : Nat := 0
  snd_una : Nat := 0
  snd_nxt : Nat := 0
  rcv_nxt : Nat := 0
  rcv_wnd : Nat := 8192
  congestion_control : CongestionControlState := {}
  retransmit_queue : List TCPSegment := []
  max_retransmit_count : Nat := 6
  out_of_order_queue : List TCPSegment := []
  src_ip : List Nat := []
  dst_ip : List Nat := []
  src_port : Nat := 0
  dst_port : Nat := 0
  bytes_in_flight : Int := 0
deriving DecidableEq, Repr

/-- TCPConnection.get_connection_id: the full four-tuple
(src_port, dst_port, src_ip, dst_ip). -/
def get_connection_id (c : TCPConnection) : Nat × Nat × List Nat × List Nat :=
  (c.src_port, c.dst_port, c.src_ip, c.dst_ip)

/-- TCPConnection.add_to_retransmit_queue: append the segment and grow
bytes_in_flight by its data length. -/
def add_to_retransmit_queue (c : TCPConnection) (s : TCPSegment) : TCPConnection :=
  { c with retransmit_queue := c.retransmit_queue ++ [s],
           bytes_in_flight := c.bytes_in_flight + s.data.length }

/-- The while loop of TCPConnection.remove_from_retransmit_queue: pop
segments from the front while the head satisfies seq_end ≤ ack_num,
accumulating the acknowledged byte count; stop at the first segment that
does not. -/
def drop_acked (ack_num : Nat) : List TCPSegment → List TCPSegment × Int
  | [] => ([], 0)
  | s :: rest =>
    if s.seq_end ≤ ack_num then
      let r := drop_acked ack_num rest
      (r.1, r.2 + s.data.length)
    else (s :: rest, 0)

/-- TCPConnection.remove_from_retransmit_queue: drop the acknowledged
prefix, decrease bytes_in_flight by the acknowledged bytes, and return the
acknowledged byte count (the source additionally feeds that count to
congestion_control.on_ack, which no claim depends on). -/
def remove_from_retransmit_queue (c : TCPConnection) (ack_num : Nat) :
    TCPConnection × Int :=
  let r := drop_acked ack_num c.retransmit_queue
  ({ c with retransmit_queue := r.1, bytes_in_flight := c.bytes_in_flight - r.2 }, r.2)

/-- The ACK-processing step of _handle_established_state (lines 756-771):
an ACK in (snd_una, snd_nxt] drops acknowledged segments from the
retransmit queue and advances snd_una to it; an ACK for unsent data only
elicits a duplicate ACK and changes nothing; an old ACK changes nothing. -/
def established_ack_update (c : TCPConnection) (ack : Nat) : TCPConnection :=
  if c.snd_una < ack ∧ ack ≤ c.snd_nxt then
    let r := remove_from_retransmit_queue c ack
    { r.1 with snd_una := ack }
  else c

/-- The ACK-processing step of _handle_syn_rcvd_state (lines 711-733): an
ACK in [snd_una, snd_nxt] moves the connection to ESTABLISHED, advances
snd_una and drops acknowledged segments; otherwise a RST is sent and the
connection state is unchanged. -/
def syn_rcvd_ack_update (c : TCPConnection) (ack : Nat) : TCPConnection :=
  if c.snd_una ≤ ack ∧ ack ≤ c.snd_nxt then
    let c1 := { c with state := TCPState.ESTABLISHED, snd_una := ack }
    (remove_from_retransmit_queue c1 ack).1
  else c

/-- The SYN branch of _handle_listen_state (lines 592-597): record the
peer sequence, set snd_nxt to initial_seq + 1 and snd_una to initial_seq,
and enter SYN_RCVD. -/
def listen_syn_init (c : TCPConnection) (seg_seq : Nat) : TCPConnection :=
  { c with rcv_nxt := seg_seq + 1,
           snd_nxt := c.initial_seq + 1,
           snd_una := c.initial_seq,
           state := TCPState.SYN_RCVD }

/-- Connection creation for an initial SYN in
AsyncTCPStack.process_tcp_segment (lines 1908-1921): a fresh LISTEN
connection whose snd_nxt and snd_una both start at the chosen initial
sequence number. -/
def new_connection (src_ip dst_ip : List Nat) (src_port dst_port iss : Nat) :
    TCPConnection :=
  { state := TCPState.LISTEN,
    src_ip := src_ip, dst_ip := dst_ip,
    src_port := src_port, dst_port := dst_port,
    initial_seq := iss, seq_num := iss, snd_nxt := iss, snd_una := iss }

/-- Total data bytes held in a retransmit queue. -/
def queueBytes (q : List TCPSegment) : Int :=
  (q.map (fun s => (s.data.length : Int))).sum

/-- The C4 invariant: snd_una never exceeds snd_nxt, and bytes_in_flight
is exactly the total data length of the retransmit queue. -/
def connInvariant (c : TCPConnection) : Prop :=
  c.snd_una ≤ c.snd_nxt ∧ c.bytes_in_flight = queueBytes c.retransmit_queue

instance (c : TCPConnection) : Decidable (connInvariant c) := by
  unfold connInvariant; infer_instance

/-! ### Segment acceptability (TCPStateMachine._is_sequence_acceptable,
lines 961-976) -/

/-- TCPStateMachine._is_sequence_acceptable, translated branch for branch
from the source (sequence numbers are Python integers, compared without
wraparound). -/
def is_sequence_acceptable (rcv_nxt rcv_wnd seq seg_len : Nat) : Bool :=
  if seg_len = 0 then
    if rcv_wnd = 0 then decide (seq = rcv_nxt)
    else decide (rcv_nxt ≤ seq ∧ seq < rcv_nxt + rcv_wnd)
  else
    if rcv_wnd = 0 then false
    else decide ((rcv_nxt ≤ seq ∧ seq < rcv_nxt + rcv_wnd) ∨
                 (rcv_nxt ≤ seq + seg_len - 1 ∧ seq + seg_len - 1 < rcv_nxt + rcv_wnd))

/-- A sequence position lies in the receive window [rcv_nxt, rcv_nxt + rcv_wnd). -/
def inReceiveWindow (rcv_nxt rcv_wnd x : Nat) : Prop :=
  rcv_nxt ≤ x ∧ x < rcv_nxt + rcv_wnd

/-- The C6 acceptability test exactly as the claim words it: four cases on
seg_len and rcv_wnd, with the nonempty-window data case accepting iff the
first or the last byte of the segment lies in the window. -/
def seq_acceptable_claim (rcv_nxt rcv_wnd seq seg_len : Nat) : Prop :=
  if seg_len = 0 then
    if rcv_wnd = 0 then seq = rcv_nxt
    else inReceiveWindow rcv_nxt rcv_wnd seq
  else
    if rcv_wnd = 0 then False
    else inReceiveWindow rcv_nxt rcv_wnd seq ∨
         inReceiveWindow rcv_nxt rcv_wnd (seq + seg_len - 1)

/-! ### CLOSED-state handling (TCPStateMachine._handle_closed_state,
lines 553-574) -/

/-- The header fields of a generated RST segment. -/
structure RstResponse where
  seq : Nat
  ack : Nat
  flags : Nat
deriving DecidableEq, Repr

/-- TCPStateMachine._handle_closed_state: a RST segment is ignored; a
segment with ACK elicits RST with seq equal to the incoming ack; any other
segment elicits RST+ACK with seq 0 and ack seq + seg_len, where seg_len is
the data length increased by one when the SYN or FIN bit is set (the
source tests the two bits together and adds one once). -/
def handle_closed_state (flags seq ack data_len : Nat) : Option RstResponse :=
  if flags &&& TCPFlags_RST ≠ 0 then none
  else if flags &&& TCPFlags_ACK ≠ 0 then
    some ⟨ack, 0, TCPFlags_RST⟩
  else
    let seg_len := data_len
    let seg_len := if flags &&& (TCPFlags_SYN ||| TCPFlags_FIN) ≠ 0
                   then seg_len + 1 else seg_len
    some ⟨0, seq + seg_len, TCPFlags_RST ||| TCPFlags_ACK⟩

/-- Claim-side C7 response: SYN and FIN each consume one sequence number,
so a segment carrying both contributes two to the RST acknowledgment. -/
def closed_state_rst_claim (flags seq ack data_len : Nat) : Option RstResponse :=
  if flags &&& TCPFlags_RST ≠ 0 then none
  else if flags &&& TCPFlags_ACK ≠ 0 then
    some ⟨ack, 0, TCPFlags_RST⟩
  else
    some ⟨0, seq + data_len + (if flags &&& TCPFlags_SYN ≠ 0 then 1 else 0)
               + (if flags &&& TCPFlags_FIN ≠ 0 then 1 else 0),
          TCPFlags_RST ||| TCPFlags_ACK⟩

/-- Amended C7 response: the acknowledgment grows by one when SYN or FIN
is present, counted once even when both bits are set. -/
def closed_state_rst_amended (flags seq ack data_len : Nat) : Option RstResponse :=
  if flags &&& TCPFlags_RST ≠ 0 then none
  else if flags &&& TCPFlags_ACK ≠ 0 then
    some ⟨ack, 0, TCPFlags_RST⟩
  else
    some ⟨0, seq + data_len +
               (if flags &&& (TCPFlags_SYN ||| TCPFlags_FIN) ≠ 0 then 1 else 0),
          TCPFlags_RST ||| TCPFlags_ACK⟩

/-! ### Out-of-order buffer (TCPStateMachine._queue_out_of_order_segment
and _process_out_of_order_queue, lines 1048-1077) -/

/-- The insertion loop of _queue_out_of_order_segment: place the new
segment before the first queued segment with a larger seq_start, else
append it. -/
def insert_ooo (seg : TCPSegment) : List TCPSegment → List TCPSegment
  | [] => [seg]
  | e :: rest =>
    if seg.seq_start < e.seq_start then seg :: e :: rest
    else e :: insert_ooo seg rest

/-- TCPStateMachine._queue_out_of_order_segment: build the segment with
seq_end = seq + data length and insert it in seq_start order. -/
def queue_out_of_order_segment (c : TCPConnection) (seq : Nat) (data : List Nat) :
    TCPConnection :=
  { c with out_of_order_queue :=
      insert_ooo ⟨seq, seq + data.length, data⟩ c.out_of_order_queue }

/-- TCPStateMachine._process_out_of_order_queue: while the head of the
buffer starts exactly at rcv_nxt, deliver it and advance rcv_nxt to its
seq_end; stop at the first head that does not start at rcv_nxt. -/
def process_out_of_order_queue (rcv_nxt : Nat) :
    List TCPSegment → Nat × List TCPSegment
  | [] => (rcv_nxt, [])
  | seg :: rest =>
    if seg.seq_start = rcv_nxt then process_out_of_order_queue seg.seq_end rest
    else (rcv_nxt, seg :: rest)

/-! ### Connection table keying (AsyncTCPStack.process_tcp_segment,
lines 1884-1931) -/

/-- The connection-table key computed by AsyncTCPStack.process_tcp_segment
(and by AsyncPPPBridge.handle_tcp_packet): only the source and destination
ports of the incoming segment; the IP addresses do not enter the key. -/
def connection_key (seg_src_port seg_dst_port : Nat)
    (seg_src_ip seg_dst_ip : List Nat) : Nat × Nat :=
  (seg_src_port, seg_dst_port)

/-- The dictionary lookup self.connections.get(key), with the table as an
association list. -/
def connections_get {α : Type} (table : List ((Nat × Nat) × α)) (key : Nat × Nat) :
    Option α :=
  match table.find? (fun kv => kv.1 = key) with
  | some kv => some kv.2
  | none => none

/-! ### Service-to-PPP data path (AsyncServiceProxy._forward_service_to_ppp
and _send_data_to_ppp, lines 2231-2302) -/

/-- The chunk size of the service-socket read in
_forward_service_to_ppp: conn.local_reader.read(4096). -/
def SERVICE_READ_CHUNK : Nat := 4096

/-- The arguments _send_data_to_ppp passes to
AsyncTCPStack.create_tcp_segment for the outgoing segment. -/
structure TcpSegmentArgs where
  src_ip : List Nat
  dst_ip : List Nat
  src_port : Nat
  dst_port : Nat
  seq : Nat
  ack : Nat
  flags : Nat
  data : List Nat
deriving DecidableEq, Repr

/-- AsyncServiceProxy._send_data_to_ppp: build a PSH+ACK segment from the
service chunk, carrying conn.seq_num as sequence number and conn.rcv_nxt
as acknowledgment, with source and destination swapped for the response
direction; after the framed send, conn.seq_num alone is advanced by the
chunk length (snd_nxt and the retransmit queue are not touched). -/
def send_data_to_ppp (conn : TCPConnection) (data : List Nat) :
    TcpSegmentArgs × TCPConnection :=
  (⟨conn.dst_ip, conn.src_ip, conn.dst_port, conn.src_port,
    conn.seq_num, conn.rcv_nxt, TCPFlags_PSH ||| TCPFlags_ACK, data⟩,
   { conn with seq_num := conn.seq_num + data.length })

/-- Claim-side C3 behaviour: the segment carries the connection's current
snd_nxt, snd_nxt advances by the chunk length, and the chunk joins the
retransmit queue (growing bytes_in_flight accordingly). -/
def send_data_to_ppp_claim (conn : TCPConnection) (data : List Nat) :
    TcpSegmentArgs × TCPConnection :=
  (⟨conn.dst_ip, conn.src_ip, conn.dst_port, conn.src_port,
    conn.snd_nxt, conn.rcv_nxt, TCPFlags_PSH ||| TCPFlags_ACK, data⟩,
   { conn with snd_nxt := conn.snd_nxt + data.length,
               retransmit_queue := conn.retransmit_queue ++
                 [⟨conn.snd_nxt, conn.snd_nxt + data.length, data⟩],
               bytes_in_flight := conn.bytes_in_flight + data.length })

/-! ### Retransmission timer expiry (TCPStateMachine._set_retransmission_timer,
lines 1079-1092) -/

/-- The retransmit_callback registered by _set_retransmission_timer.  Its
body in the source is only a debug log plus the comment that a writer
reference would be needed to actually retransmit: it changes no connection
state and emits no segment. -/
def retransmit_callback_effect (conn : TCPConnection) :
    TCPConnection × Option TcpSegmentArgs :=
  (conn, none)

/-- A concrete established connection with one unacknowledged in-flight
segment, as a representative input for the retransmission-timer claim. -/
def exampleRetransmitConn : TCPConnection :=
  { state := TCPState.ESTABLISHED,
    snd_una := 1000, snd_nxt := 1010, rcv_nxt := 500,
    retransmit_queue := [⟨1000, 1010, [0, 1, 2, 3, 4, 5, 6, 7, 8, 9]⟩],
    bytes_in_flight := 10,
    src_ip := [10, 0, 0, 2], dst_ip := [10, 0, 0, 1],
    src_port := 40000, dst_port := 80 }

/-! ### Packet codec (AsyncTCPStack, lines 1726-1878) -/

/-- Indexing a byte string, with 0 for out-of-range positions (all uses
below are in range). -/
def byteAt : List Nat → Nat → Nat
  | [], _ => 0
  | b :: _, 0 => b
  | _ :: rest, i + 1 => byteAt rest i

/-- A big-endian 16-bit field at byte offset i. -/
def word16 (l : List Nat) (i : Nat) : Nat := byteAt l i * 256 + byteAt l (i + 1)

/-- A big-endian 32-bit field at byte offset i. -/
def word32 (l : List Nat) (i : Nat) : Nat :=
  byteAt l i * 16777216 + byteAt l (i + 1) * 65536 +
    byteAt l (i + 2) * 256 + byteAt l (i + 3)

/-- Big-endian bytes of a 16-bit value (struct.pack with format !H). -/
def pack16 (x : Nat) : List Nat := [x / 256 % 256, x % 256]

/-- Split a byte string into big-endian 16-bit words, padding a trailing
odd byte with 0x00, as both checksum routines do. -/
def words16 : List Nat → List Nat
  | [] => []
  | [b] => [b * 256]
  | b1 :: b2 :: rest => (b1 * 256 + b2) :: words16 rest

/-- The carry-folding loop of the checksum routines: while the sum has
bits above the low 16, add the carry back in (shift and mask written as
division and remainder by 2^16). -/
def foldCarry (x : Nat) : Nat :=
  if x / 65536 = 0 then x
  else foldCarry (x % 65536 + x / 65536)
termination_by x
decreasing_by omega

/-- AsyncTCPStack.calculate_ip_checksum: ones-complement of the folded
16-bit word sum of the header. -/
def calculate_ip_checksum (header : List Nat) : Nat :=
  65535 - foldCarry (words16 header).sum

/-- AsyncTCPStack.calculate_tcp_checksum: the same sum over the
pseudo-header (src_ip, dst_ip, 0, 6, tcp_length) concatenated with the
segment. -/
def calculate_tcp_checksum (src_ip dst_ip tcp_segment : List Nat) : Nat :=
  let pseudo := src_ip ++ dst_ip ++ [0, 6] ++ pack16 tcp_segment.length
  65535 - foldCarry (words16 (pseudo ++ tcp_segment)).sum

/-- The parse result of AsyncTCPStack.parse_packet. -/
structure ParsedPacket where
  src_ip : List Nat
  dst_ip : List Nat
  src_port : Nat
  dst_port : Nat
  seq : Nat
  ack : Nat
  flags : Nat
  window : Nat
  checksum : Nat
  urgent_ptr : Nat
  options : List Nat
  data : List Nat
deriving DecidableEq, Repr

/-- AsyncTCPStack.parse_packet (lines 1820-1878), translated check for
check from the source.  The packet is rejected only for structural
reasons: too short, not protocol 6, IHL beyond the packet, TCP header
shorter than 20 or beyond the segment.  The TCP checksum field is
extracted verbatim; neither the IP nor the TCP checksum is recomputed or
compared anywhere on this path (nor by any caller up to
process_tcp_segment). -/
def parse_packet (packet : List Nat) : Option ParsedPacket :=
  if packet.length < 20 then none
  else
    let version_ihl := byteAt packet 0
    let ihl := (version_ihl &&& 0x0F) * 4
    if packet.length < ihl then none
    else if byteAt packet 9 ≠ 6 then none
    else
      let src_ip := (packet.drop 12).take 4
      let dst_ip := (packet.drop 16).take 4
      let tcp_data := packet.drop ihl
      if tcp_data.length < 20 then none
      else
        let tcp_header_len := (byteAt tcp_data 12 / 16) * 4
        if tcp_header_len < 20 ∨ tcp_header_len > tcp_data.length then none
        else
          let options_data :=
            if tcp_header_len > 20 then (tcp_data.drop 20).take (tcp_header_len - 20)
            else []
          some ⟨src_ip, dst_ip,
                word16 tcp_data 0, word16 tcp_data 2,
                word32 tcp_data 4, word32 tcp_data 8,
                byteAt tcp_data 13, word16 tcp_data 14,
                word16 tcp_data 16, word16 tcp_data 18,
                options_data, tcp_data.drop tcp_header_len⟩

/-- A concrete 20-byte IPv4 header (protocol TCP, 10.0.0.2 to 10.0.0.1)
whose stored header checksum bytes are zero. -/
def ipHdrZeroCk : List Nat :=
  [0x45, 0, 0, 0x28, 0, 1, 0x40, 0, 0x40, 6, 0, 0,
   10, 0, 0, 2, 10, 0, 0, 1]

/-- A concrete 20-byte TCP SYN segment (port 0x1234 to port 80, seq 1)
parameterised by its two stored checksum bytes. -/
def tcpSegCk (c1 c2 : Nat) : List Nat :=
  [0x12, 0x34, 0x00, 0x50, 0, 0, 0, 1, 0, 0, 0, 0,
   0x50, 0x02, 0x20, 0x00, c1, c2, 0, 0]

/-- A concrete established connection whose proxy-side sequence counter
seq_num differs from snd_nxt, for exercising the service-to-PPP send
path. -/
def exampleProxyConn : TCPConnection :=
  { state := TCPState.ESTABLISHED,
    seq_num := 7777, snd_una := 5000, snd_nxt := 5000, rcv_nxt := 600,
    src_ip := [10, 0, 0, 2], dst_ip := [10, 0, 0, 1],
    src_port := 40000, dst_port := 80 }

/-- A concrete connection satisfying the C4 invariant: ten bytes in
flight matching one queued segment. -/
def exampleInvariantConn : TCPConnection :=
  { state := TCPState.ESTABLISHED,
    snd_una := 100, snd_nxt := 110, rcv_nxt := 50,
    retransmit_queue := [⟨100, 110, [0, 1, 2, 3, 4, 5, 6, 7, 8, 9]⟩],
    bytes_in_flight := 10 }

/-- A concrete established connection with an empty out-of-order buffer
and rcv_nxt 0, for exercising the out-of-order path. -/
def exampleOooConn : TCPConnection :=
  { state := TCPState.ESTABLISHED, rcv_nxt := 0 }

/-- A modified congestion-control state whose cwnd has grown beyond one
MSS, so that an on_timeout collapse is observable. -/
def exampleGrownCC : CongestionControlState := { cwnd := 4000 }

/-! ### Theorems -/

/-- Processing the escaped image of a payload never emits a frame and
appends exactly the original payload to the buffer. -/
theorem processBytes_escape (B : List Nat) :
    ∀ (buf rest : List Nat) (frames : List (List Nat)),
      processBytes ⟨buf, true, false⟩ frames (escapeBytes B ++ rest) =
        processBytes ⟨buf ++ B, true, false⟩ frames rest := by
  induction B with
  | nil => intro buf rest frames; simp [escapeBytes]
  | cons b B ih =>
    intro buf rest frames
    by_cases hb : b = 0x7E ∨ b = 0x7D
    · rcases hb with hb | hb <;>
        subst hb <;>
        simp [escapeBytes, processBytes, processByte, ih, List.append_assoc]
    · push_neg at hb
      obtain ⟨hb1, hb2⟩ := hb
      simp only [escapeBytes, if_neg (by tauto : ¬ (b = 0x7E ∨ b = 0x7D))]
      rw [List.cons_append, processBytes]
      simp only [processByte, if_neg hb1, if_pos rfl, if_neg hb2]
      simpa [List.append_assoc] using ih (buf ++ [b]) rest frames

/-- Claim C10 (confirmed): frame-codec round-trip.  For every non-empty
payload B, encoding with frame_data and decoding with process_data on a
freshly initialised decoder yields exactly the single frame B and leaves
the decoder outside a frame with an empty buffer. -/
theorem ppp_frame_roundtrip (B : List Nat) (hB : B ≠ []) :
    process_data ⟨[], false, false⟩ (frame_data B) =
      (⟨[], false, false⟩, [B]) := by
  unfold process_data frame_data
  rw [processBytes]
  have h1 : processByte ⟨[], false, false⟩ [] 0x7E = (⟨[], true, false⟩, []) := by
    simp [processByte]
  rw [h1]
  have h2 := processBytes_escape B [] [0x7E] []
  simp only [List.nil_append] at h2
  rw [h2, processBytes]
  have h3 : processByte ⟨B, true, false⟩ [] 0x7E = (⟨[], false, false⟩, [B]) := by
    simp [processByte, hB]
  rw [h3, processBytes]

/-- Witness for ppp_frame_roundtrip at the concrete payload
[1, 2, 0x7E, 0x7D, 5]. -/
theorem ppp_frame_roundtrip_witness :
    ([1, 2, 0x7E, 0x7D, 5] : List Nat) ≠ [] ∧
      process_data ⟨[], false, false⟩ (frame_data [1, 2, 0x7E, 0x7D, 5]) =
        (⟨[], false, false⟩, [[1, 2, 0x7E, 0x7D, 5]]) :=
  ⟨by decide, ppp_frame_roundtrip [1, 2, 0x7E, 0x7D, 5] (by decide)⟩

/-- Counterexample to claim C9 as stated: the wire image of two
consecutive one-byte frames is 7E 00 7E 7E 00 7E, which has TWO flag
octets between the frame bodies, not one. -/
theorem consecutive_frames_two_flags_cex :
    ¬ separatedByOneFlag [0] [0] ∧
      frame_data [0] ++ frame_data [0] =
        [0x7E, 0, 0x7E, 0x7E, 0, 0x7E] := by
  constructor
  · intro h
    simp [separatedByOneFlag, frame_data, escapeBytes] at h
  · decide

/-- The escaped body emitted inside a frame never contains an unescaped
0x7E or 0x7D. -/
theorem escapeBytes_no_unescaped (B : List Nat) :
    no_unescaped_specials (escapeBytes B) = true := by
  unfold no_unescaped_specials
  induction B with
  | nil => rfl
  | cons b B ih =>
    by_cases hb : b = 0x7E ∨ b = 0x7D
    · rcases hb with hb | hb <;> subst hb <;>
        simpa [escapeBytes, no_unescaped_from] using ih
    · push_neg at hb
      obtain ⟨hb1, hb2⟩ := hb
      simp only [escapeBytes, if_neg (by tauto : ¬ (b = 0x7E ∨ b = 0x7D))]
      simpa [no_unescaped_from, hb1, hb2] using ih

/-- Claim C9 amended: two consecutive frames emitted to the wire are
separated by exactly TWO 0x7E flag octets (the trailing flag of the first
frame and the leading flag of the second), and the escaped bodies contain
no unescaped 0x7E or 0x7D: every payload occurrence of those octets is
transmitted as 0x7D followed by the octet XOR 0x20. -/
theorem consecutive_frames_separated_by_two_flags (f1 f2 : List Nat) :
    frame_data f1 ++ frame_data f2 =
      0x7E :: (escapeBytes f1 ++ (0x7E :: (0x7E :: (escapeBytes f2 ++ [0x7E])))) ∧
    no_unescaped_specials (escapeBytes f1) = true ∧
    no_unescaped_specials (escapeBytes f2) = true := by
  refine ⟨?_, escapeBytes_no_unescaped f1, escapeBytes_no_unescaped f2⟩
  simp [frame_data, List.append_assoc]

/-- Claim C6 (confirmed): the segment-acceptability test implements
exactly the four RFC 793 cases stated by the claim: an empty segment
against a zero window requires seq = rcv_nxt; an empty segment against a
positive window requires rcv_nxt ≤ seq < rcv_nxt + rcv_wnd; a non-empty
segment against a zero window is rejected; and a non-empty segment
against a positive window is accepted iff its first or its last byte lies
in the receive window. -/
theorem seq_acceptability_matches_claim (rcv_nxt rcv_wnd seq seg_len : Nat) :
    is_sequence_acceptable rcv_nxt rcv_wnd seq seg_len = true ↔
      seq_acceptable_claim rcv_nxt rcv_wnd seq seg_len := by
  unfold is_sequence_acceptable seq_acceptable_claim inReceiveWindow
  split <;> split <;> simp

/-- Counterexample to claim C7 as stated: in CLOSED state, a segment
carrying both SYN and FIN (flags 0x03) with seq 100 and no data elicits a
RST+ACK whose ack is 101 - the source adds one for the combined SYN/FIN
test - while the claim (one sequence number for SYN plus one for FIN)
demands 102. -/
theorem closed_state_syn_fin_cex :
    handle_closed_state (TCPFlags_SYN ||| TCPFlags_FIN) 100 0 0 =
      some ⟨0, 101, TCPFlags_RST ||| TCPFlags_ACK⟩ ∧
    closed_state_rst_claim (TCPFlags_SYN ||| TCPFlags_FIN) 100 0 0 =
      some ⟨0, 102, TCPFlags_RST ||| TCPFlags_ACK⟩ ∧
    handle_closed_state (TCPFlags_SYN ||| TCPFlags_FIN) 100 0 0 ≠
      closed_state_rst_claim (TCPFlags_SYN ||| TCPFlags_FIN) 100 0 0 := by
  refine ⟨by decide, by decide, by decide⟩

/-- Claim C7 amended: in CLOSED state every non-RST segment elicits a
RST; with ACK the RST uses seq = seg.ack; otherwise seq 0 and
ack = seg.seq + seg_len where seg_len grows by ONE when SYN or FIN is
present, counted once even when both bits are set. -/
theorem closed_state_rst_behaviour (flags seq ack data_len : Nat) :
    handle_closed_state flags seq ack data_len =
      closed_state_rst_amended flags seq ack data_len := by
  unfold handle_closed_state closed_state_rst_amended
  split_ifs <;> rfl

/-- Counterexample to claim C5 as stated: two segments agreeing on the
port pair (1000, 80) but with entirely different source and destination
IP addresses produce the same connection-table key, and the table lookup
therefore yields the SAME connection entry for both, not distinct
entries. -/
theorem connection_key_ignores_ips_cex :
    connection_key 1000 80 [10, 0, 0, 2] [10, 0, 0, 1] =
      connection_key 1000 80 [192, 168, 1, 5] [172, 16, 0, 9] ∧
    connections_get [((1000, 80), 7)]
        (connection_key 1000 80 [10, 0, 0, 2] [10, 0, 0, 1]) = some 7 ∧
    connections_get [((1000, 80), 7)]
        (connection_key 1000 80 [192, 168, 1, 5] [172, 16, 0, 9]) = some 7 := by
  refine ⟨rfl, by decide, by decide⟩

/-- Claim C5 amended: the stack keys connections by the port pair
(src_port, dst_port) only; any two segments that agree on both ports are
processed against the same connection-table entry, whatever their IP
addresses (the four-tuple of get_connection_id is not used as the table
key). -/
theorem connection_table_keyed_by_ports_only {α : Type}
    (table : List ((Nat × Nat) × α)) (sp dp : Nat)
    (src_ip dst_ip src_iph dst_iph : List Nat) :
    connection_key sp dp src_ip dst_ip = connection_key sp dp src_iph dst_iph ∧
    connections_get table (connection_key sp dp src_ip dst_ip) =
      connections_get table (connection_key sp dp src_iph dst_iph) :=
  ⟨rfl, rfl⟩

/-- Counterexample to claim C3 as stated: on a connection whose seq_num
is 7777 while snd_nxt is 5000, sending a three-byte service chunk emits a
segment with sequence number 7777 (not snd_nxt), leaves snd_nxt at 5000,
and leaves the retransmit queue empty, contradicting the claimed
snd_nxt-based send, snd_nxt advance and retransmit-queue append. -/
theorem send_data_uses_seq_num_cex :
    send_data_to_ppp exampleProxyConn [1, 2, 3] ≠
      send_data_to_ppp_claim exampleProxyConn [1, 2, 3] ∧
    (send_data_to_ppp exampleProxyConn [1, 2, 3]).1.seq = 7777 ∧
    (send_data_to_ppp exampleProxyConn [1, 2, 3]).2.snd_nxt = 5000 ∧
    (send_data_to_ppp exampleProxyConn [1, 2, 3]).2.retransmit_queue = [] := by
  refine ⟨by decide, rfl, rfl, rfl⟩

/-- Claim C3 amended: each service chunk is sent as a PSH+ACK segment
carrying the connection's seq_num counter and rcv_nxt, with source and
destination swapped; afterwards seq_num alone advances by the chunk
length, while snd_nxt, the retransmit queue and bytes_in_flight are all
unchanged (the chunk is never queued for retransmission). -/
theorem send_data_advances_seq_num_only (conn : TCPConnection) (data : List Nat) :
    (send_data_to_ppp conn data).1.seq = conn.seq_num ∧
    (send_data_to_ppp conn data).1.ack = conn.rcv_nxt ∧
    (send_data_to_ppp conn data).1.flags = (TCPFlags_PSH ||| TCPFlags_ACK) ∧
    (send_data_to_ppp conn data).1.data = data ∧
    (send_data_to_ppp conn data).1.src_ip = conn.dst_ip ∧
    (send_data_to_ppp conn data).1.dst_ip = conn.src_ip ∧
    (send_data_to_ppp conn data).2.seq_num = conn.seq_num + data.length ∧
    (send_data_to_ppp conn data).2.snd_nxt = conn.snd_nxt ∧
    (send_data_to_ppp conn data).2.retransmit_queue = conn.retransmit_queue ∧
    (send_data_to_ppp conn data).2.bytes_in_flight = conn.bytes_in_flight :=
  ⟨rfl, rfl, rfl, rfl, rfl, rfl, rfl, rfl, rfl, rfl⟩

/-- Claim C2 (code bug): on retransmission-timer expiry the registered
callback changes nothing.  At a representative established connection
with one unacked segment in flight, the callback returns the connection
unchanged and emits no segment - so nothing is retransmitted, the RTO is
not doubled, the retransmit queue and congestion state are untouched, and
no abort can ever be reached - even though CongestionControl.on_timeout
(which the spec says expiry must invoke) would observably change the
congestion state. -/
theorem retransmission_timer_expiry_is_noop :
    (retransmit_callback_effect exampleRetransmitConn).1 = exampleRetransmitConn ∧
    (retransmit_callback_effect exampleRetransmitConn).2 = none ∧
    exampleRetransmitConn.retransmit_queue ≠ [] ∧
    cc_on_timeout exampleGrownCC ≠ exampleGrownCC := by
  refine ⟨rfl, rfl, by decide, fun h => ?_⟩
  have hc := congrArg CongestionControlState.cwnd h
  simp [cc_on_timeout, exampleGrownCC] at hc

/-- Counterexample to claim C8 as stated: starting from rcv_nxt 0, a
future segment (seq 5, three bytes) is queued out of order; then ten
in-order bytes arrive, advancing rcv_nxt to 10, and the buffer is
drained.  The drain stops at the stale head (its seq_start 5 differs from
10), so after draining the buffer still holds a segment with
seq_start 5 < rcv_nxt 10. -/
theorem ooo_buffer_stale_segment_cex :
    (process_out_of_order_queue (0 + 10)
        (queue_out_of_order_segment exampleOooConn 5 [97, 98, 99]).out_of_order_queue) =
      (10, [⟨5, 8, [97, 98, 99]⟩]) ∧
    ∃ s ∈ (process_out_of_order_queue (0 + 10)
        (queue_out_of_order_segment exampleOooConn 5 [97, 98, 99]).out_of_order_queue).2,
      s.seq_start < 10 := by
  refine ⟨by decide, by decide⟩

/-- In a chained (pairwise disjoint, sorted) segment list whose segments
are well formed, every later segment starts at or beyond the end of the
head. -/
theorem chain_head_le (a : TCPSegment) (q : List TCPSegment)
    (hchain : List.Chain' (fun x y => x.seq_end ≤ y.seq_start) (a :: q))
    (hwf : ∀ s ∈ q, s.seq_start ≤ s.seq_end) :
    ∀ s ∈ q, a.seq_end ≤ s.seq_start := by
  induction q generalizing a with
  | nil => simp
  | cons b q ih =>
    rw [List.chain'_cons] at hchain
    obtain ⟨hab, hchain2⟩ := hchain
    intro s hs
    rcases List.mem_cons.mp hs with hs | hs
    · subst hs; exact hab
    · have hb : b.seq_start ≤ b.seq_end := hwf b (List.mem_cons_self b q)
      have hrec := ih b hchain2 (fun t ht => hwf t (List.mem_cons_of_mem _ ht)) s hs
      omega

/-- Claim C8 amended: provided the out-of-order buffer holds pairwise
disjoint segments sorted by start, each well formed, and all starting at
or beyond rcv_nxt, then after draining no remaining segment has
seq_start below the advanced rcv_nxt.  (Without these provisos the
property fails: a stale segment whose start was already passed survives
the drain, as the counterexample shows.) -/
theorem ooo_drain_no_stale_when_sorted_disjoint (r : Nat) (q : List TCPSegment)
    (hlb : ∀ s ∈ q, r ≤ s.seq_start)
    (hchain : List.Chain' (fun x y => x.seq_end ≤ y.seq_start) q)
    (hwf : ∀ s ∈ q, s.seq_start ≤ s.seq_end) :
    ∀ s ∈ (process_out_of_order_queue r q).2,
      (process_out_of_order_queue r q).1 ≤ s.seq_start := by
  induction q generalizing r with
  | nil => intro s hs; simp [process_out_of_order_queue] at hs
  | cons a q ih =>
    by_cases ha : a.seq_start = r
    · rw [process_out_of_order_queue, if_pos ha]
      exact ih a.seq_end
        (chain_head_le a q hchain (fun t ht => hwf t (List.mem_cons_of_mem _ ht)))
        hchain.tail
        (fun t ht => hwf t (List.mem_cons_of_mem _ ht))
    · rw [process_out_of_order_queue, if_neg ha]
      intro s hs
      exact hlb s hs

/-- Witness for ooo_drain_no_stale_when_sorted_disjoint at a concrete
sorted disjoint buffer starting at rcv_nxt 10. -/
theorem ooo_drain_witness :
    (∀ s ∈ ([⟨10, 13, [1, 2, 3]⟩, ⟨20, 21, [7]⟩] : List TCPSegment),
        10 ≤ s.seq_start) ∧
    List.Chain' (fun x y => x.seq_end ≤ y.seq_start)
      ([⟨10, 13, [1, 2, 3]⟩, ⟨20, 21, [7]⟩] : List TCPSegment) ∧
    (∀ s ∈ ([⟨10, 13, [1, 2, 3]⟩, ⟨20, 21, [7]⟩] : List TCPSegment),
        s.seq_start ≤ s.seq_end) ∧
    (∀ s ∈ (process_out_of_order_queue 10
        ([⟨10, 13, [1, 2, 3]⟩, ⟨20, 21, [7]⟩] : List TCPSegment)).2,
      (process_out_of_order_queue 10
        ([⟨10, 13, [1, 2, 3]⟩, ⟨20, 21, [7]⟩] : List TCPSegment)).1 ≤ s.seq_start) :=
  ⟨by decide,
   List.chain'_cons.mpr ⟨by decide, List.chain'_singleton _⟩,
   by decide,
   ooo_drain_no_stale_when_sorted_disjoint 10 _ (by decide)
     (List.chain'_cons.mpr ⟨by decide, List.chain'_singleton _⟩) (by decide)⟩

/-- The acknowledged-prefix drop splits the queue byte count: the bytes
of the original queue are the bytes of the remainder plus the
acknowledged bytes. -/
theorem drop_acked_bytes (a : Nat) (q : List TCPSegment) :
    queueBytes q = queueBytes (drop_acked a q).1 + (drop_acked a q).2 := by
  induction q with
  | nil => simp [drop_acked, queueBytes]
  | cons s rest ih =>
    rw [drop_acked]
    by_cases h : s.seq_end ≤ a
    · rw [if_pos h]
      simp only [queueBytes, List.map_cons, List.sum_cons] at ih ⊢
      omega
    · rw [if_neg h]
      simp

/-- The acknowledged-prefix drop removes exactly a prefix of the queue,
every element of which satisfies seq_end ≤ ack. -/
theorem drop_acked_prefix (a : Nat) (q : List TCPSegment) :
    ∃ removed, q = removed ++ (drop_acked a q).1 ∧
      ∀ s ∈ removed, s.seq_end ≤ a := by
  induction q with
  | nil => exact ⟨[], by simp [drop_acked], by simp⟩
  | cons s rest ih =>
    by_cases h : s.seq_end ≤ a
    · obtain ⟨rem, hq, hall⟩ := ih
      refine ⟨s :: rem, ?_, ?_⟩
      · rw [drop_acked, if_pos h]
        simpa using hq
      · intro t ht
        rcases List.mem_cons.mp ht with ht | ht
        · subst ht; exact h
        · exact hall t ht
    · refine ⟨[], ?_, by simp⟩
      rw [drop_acked, if_neg h]
      simp

/-- Claim C4 (confirmed): every operation that touches the send state or
the retransmit queue preserves the invariant snd_una ≤ snd_nxt together
with bytes_in_flight equal to the total queued data length - queue
append, acknowledged-prefix removal, the ESTABLISHED and SYN_RCVD ACK
steps, the LISTEN SYN step, and fresh connection creation all preserve
it - and removal only ever discards segments with seq_end ≤ the
acknowledged number. -/
theorem conn_invariant_preserved (c : TCPConnection) (h : connInvariant c)
    (s : TCPSegment) (ack seg_seq iss : Nat)
    (src_ip dst_ip : List Nat) (sp dp : Nat) :
    connInvariant (add_to_retransmit_queue c s) ∧
    connInvariant (remove_from_retransmit_queue c ack).1 ∧
    connInvariant (established_ack_update c ack) ∧
    connInvariant (syn_rcvd_ack_update c ack) ∧
    connInvariant (listen_syn_init c seg_seq) ∧
    connInvariant (new_connection src_ip dst_ip sp dp iss) ∧
    (∃ removed, c.retransmit_queue =
        removed ++ (remove_from_retransmit_queue c ack).1.retransmit_queue ∧
      ∀ t ∈ removed, t.seq_end ≤ ack) := by
  obtain ⟨h1, h2⟩ := h
  have hdrop := drop_acked_bytes ack c.retransmit_queue
  have hqapp : queueBytes (c.retransmit_queue ++ [s]) =
      queueBytes c.retransmit_queue + s.data.length := by
    simp [queueBytes]
  refine ⟨⟨h1, ?_⟩, ⟨h1, ?_⟩, ?_, ?_, ⟨?_, h2⟩, ⟨le_refl _, rfl⟩, ?_⟩
  · show c.bytes_in_flight + s.data.length = queueBytes (c.retransmit_queue ++ [s])
    omega
  · show c.bytes_in_flight - (drop_acked ack c.retransmit_queue).2 =
      queueBytes (drop_acked ack c.retransmit_queue).1
    omega
  · unfold established_ack_update
    split
    · rename_i hg
      refine ⟨?_, ?_⟩
      · show ack ≤ c.snd_nxt
        exact hg.2
      · show c.bytes_in_flight - (drop_acked ack c.retransmit_queue).2 =
          queueBytes (drop_acked ack c.retransmit_queue).1
        omega
    · exact ⟨h1, h2⟩
  · unfold syn_rcvd_ack_update
    split
    · rename_i hg
      refine ⟨?_, ?_⟩
      · show ack ≤ c.snd_nxt
        exact hg.2
      · show c.bytes_in_flight - (drop_acked ack c.retransmit_queue).2 =
          queueBytes (drop_acked ack c.retransmit_queue).1
        omega
    · exact ⟨h1, h2⟩
  · show c.initial_seq ≤ c.initial_seq + 1
    omega
  · exact drop_acked_prefix ack c.retransmit_queue

/-- Witness for conn_invariant_preserved at a concrete connection with
ten bytes in flight and one queued segment, appending a five-byte segment
and acknowledging up to 105. -/
theorem conn_invariant_preserved_witness :
    connInvariant exampleInvariantConn ∧
    (connInvariant (add_to_retransmit_queue exampleInvariantConn ⟨110, 115, [1, 2, 3, 4, 5]⟩) ∧
     connInvariant (remove_from_retransmit_queue exampleInvariantConn 105).1 ∧
     connInvariant (established_ack_update exampleInvariantConn 105) ∧
     connInvariant (syn_rcvd_ack_update exampleInvariantConn 105) ∧
     connInvariant (listen_syn_init exampleInvariantConn 42) ∧
     connInvariant (new_connection [10, 0, 0, 2] [10, 0, 0, 1] 40000 80 999) ∧
     (∃ removed, exampleInvariantConn.retransmit_queue =
         removed ++ (remove_from_retransmit_queue exampleInvariantConn 105).1.retransmit_queue ∧
       ∀ t ∈ removed, t.seq_end ≤ 105)) :=
  ⟨by decide,
   conn_invariant_preserved exampleInvariantConn (by decide)
     ⟨110, 115, [1, 2, 3, 4, 5]⟩ 105 42 999 [10, 0, 0, 2] [10, 0, 0, 1] 40000 80⟩

/-- Counterexample to claim C1 as stated: a concrete IPv4/TCP packet
whose stored TCP checksum (0) disagrees with the checksum computed over
the pseudo-header and segment (26971), and whose stored IP header
checksum (0) disagrees with the computed header checksum (9933), is
nevertheless parsed successfully - parse_packet returns the segment,
checksum field and all, and the caller hands it straight to the state
machine; it is not dropped. -/
theorem checksum_not_verified_cex :
    calculate_tcp_checksum [10, 0, 0, 2] [10, 0, 0, 1] (tcpSegCk 0 0) = 26971 ∧
    calculate_ip_checksum ipHdrZeroCk = 9933 ∧
    word16 (tcpSegCk 0 0) 16 = 0 ∧
    word16 ipHdrZeroCk 10 = 0 ∧
    (parse_packet (ipHdrZeroCk ++ tcpSegCk 0 0)).isSome = true := by
  refine ⟨?_, ?_, by decide, by decide, by decide⟩
  · simp [calculate_tcp_checksum, tcpSegCk, pack16, words16, foldCarry]
  · simp [calculate_ip_checksum, ipHdrZeroCk, words16, foldCarry]

/-- Claim C1 amended: checksums are computed on egress only; on ingress
parse_packet verifies neither the IP header checksum nor the TCP
checksum.  Whatever two bytes stand in the TCP checksum field - valid,
invalid, or out of byte range - the packet parses to the same successful
result, carrying the stored bytes verbatim, and is handed onward to the
TCP state machine rather than dropped. -/
theorem parse_accepts_any_checksum (c1 c2 : Nat) :
    parse_packet (ipHdrZeroCk ++ tcpSegCk c1 c2) =
      some ⟨[10, 0, 0, 2], [10, 0, 0, 1], 0x1234, 80, 1, 0, 0x02, 0x2000,
            c1 * 256 + c2, 0, [], []⟩ := by
  unfold parse_packet ipHdrZeroCk tcpSegCk
  norm_num [byteAt, word16, word32, (by decide : (69 : Nat) &&& 15 = 5)]

end PySlirp
